import Mathlib

/-!
Shallow embedding of the three Anchor programs of the sol-itaire repository
(`programs/gaming-token`, `programs/memecoin`, `programs/solitaire`).

Each instruction handler is translated as a pure function from the mutated
account record, the verified caller key, the instruction arguments and the
host clock to an `Outcome`: success carries the updated record, the token
amount the instruction asks the token service to transfer (or mint), and the
emitted event; failure carries the program error of the failing `require!`.
A non-`ok` outcome commits no state change (the host runtime rolls the whole
instruction back, spec section 5).

Machine integers: `u64`/`u32` values are natural numbers below `2 ^ 64`
(resp. `2 ^ 32`); `i64` values are integers.  The repository sources do not
include the build profile that fixes the overflow behaviour of `+`/`*`, so
following the spec ("arithmetic overflow is a fatal abort") every u64/u32
addition and multiplication is checked and an overflowing one aborts the
instruction with `Outcome.trap`.
-/

/-- Outcome of one instruction: success with a value, a program error, or an
arithmetic-overflow abort.  A `fail`/`trap` outcome leaves every account
unchanged (atomic rollback). -/
inductive Outcome (ε α : Type) where
  | ok : α → Outcome ε α
  | fail : ε → Outcome ε α
  | trap : Outcome ε α
deriving DecidableEq, Repr

/-- Public keys are only ever compared for equality by the programs, so they
are modelled abstractly as naturals. -/
abbrev Pubkey := Nat

/-- Modelled from the spec: "arithmetic overflow is a fatal abort" (the
overflow-checks build profile is not part of `src/`).  Checked u64 addition:
`none` signals the abort. -/
def checkedAdd64 (a b : Nat) : Option Nat :=
  if a + b < 2 ^ 64 then some (a + b) else none

/-- Modelled from the spec: checked u64 multiplication, `none` on overflow. -/
def checkedMul64 (a b : Nat) : Option Nat :=
  if a * b < 2 ^ 64 then some (a * b) else none

/-- Modelled from the spec: checked u32 addition, `none` on overflow. -/
def checkedAdd32 (a b : Nat) : Option Nat :=
  if a + b < 2 ^ 32 then some (a + b) else none

/-- Rust's `i64 as u64` primitive cast: two's-complement reinterpretation
(never traps, even in checked builds). -/
def i64ToU64 (x : Int) : Nat := (x % (2 ^ 64 : Int)).toNat

theorem i64ToU64_of_nonneg (x : Int) (h0 : 0 ≤ x) (h1 : x < 2 ^ 64) :
    i64ToU64 x = x.toNat := by
  unfold i64ToU64
  rw [Int.emod_eq_of_lt h0 h1]

namespace GamingToken

/-- Error enum of `programs/gaming-token/src/lib.rs`. -/
inductive GamingTokenError where
  | NameTooLong
  | SymbolTooLong
  | InvalidDecimals
  | InvalidAmount
  | InvalidLockPeriod
  | Unauthorized
  | StakeNotActive
  | TokensStillLocked
  | InsufficientFunds
deriving DecidableEq, Repr

/-- `MintConfig` account. -/
structure MintConfig where
  authority : Pubkey
  mint : Pubkey
  token_name : String
  token_symbol : String
  decimals : Nat
  total_supply : Nat
  is_initialized : Bool
  created_at : Int
deriving DecidableEq, Repr

/-- `StakeAccount` account. -/
structure StakeAccount where
  owner : Pubkey
  mint : Pubkey
  amount : Nat
  lock_until : Int
  created_at : Int
  last_reward_claim : Int
  is_active : Bool
deriving DecidableEq, Repr

/-- `TokensMinted` event. -/
structure TokensMinted where
  mint : Pubkey
  dest : Pubkey
  amount : Nat
  new_supply : Nat
  timestamp : Int
deriving DecidableEq, Repr

/-- `TokensUnstaked` event. -/
structure TokensUnstaked where
  owner : Pubkey
  principal : Nat
  reward : Nat
  total : Nat
  timestamp : Int
deriving DecidableEq, Repr

/-- `RewardsClaimed` event. -/
structure RewardsClaimed where
  owner : Pubkey
  amount : Nat
  timestamp : Int
deriving DecidableEq, Repr

/-- `mint_tokens` handler: requires `amount > 0` and the caller to be the
recorded authority, mints `amount` to `token_account` and adds it to
`total_supply` (checked). -/
def mint_tokens (c : MintConfig) (caller : Pubkey) (token_account : Pubkey)
    (amount : Nat) (now : Int) :
    Outcome GamingTokenError (MintConfig × Nat × TokensMinted) :=
  if amount > 0 then
    if caller = c.authority then
      match checkedAdd64 c.total_supply amount with
      | none => .trap
      | some new_supply =>
          .ok ({ c with total_supply := new_supply }, amount,
            { mint := c.mint, dest := token_account, amount := amount,
              new_supply := new_supply, timestamp := now })
    else .fail .Unauthorized
  else .fail .InvalidAmount

/-- `unstake_tokens` handler: requires an active stake, the caller to be the
owner and `now ≥ lock_until`; pays `amount + amount * 5 * (now − created_at)
/ (100 * 365 * 24 * 60 * 60)` out of the stake vault and deactivates the
stake.  The elapsed time is cast `i64 as u64` exactly as in the source. -/
def unstake_tokens (s : StakeAccount) (caller : Pubkey) (now : Int) :
    Outcome GamingTokenError (StakeAccount × Nat × TokensUnstaked) :=
  if s.is_active then
    if caller = s.owner then
      if s.lock_until ≤ now then
        match checkedMul64 s.amount 5 with
        | none => .trap
        | some a5 =>
          match checkedMul64 a5 (i64ToU64 (now - s.created_at)) with
          | none => .trap
          | some prod =>
            let reward_amount := prod / (100 * 365 * 24 * 60 * 60)
            match checkedAdd64 s.amount reward_amount with
            | none => .trap
            | some total_amount =>
                .ok ({ s with is_active := false }, total_amount,
                  { owner := s.owner, principal := s.amount,
                    reward := reward_amount, total := total_amount,
                    timestamp := now })
      else .fail .TokensStillLocked
    else .fail .Unauthorized
  else .fail .StakeNotActive

/-- `claim_rewards` handler: requires an active stake owned by the caller;
computes `amount * 5 * (now − last_reward_claim) / (100 * 365 * 24 * 60 *
60)` and, when positive, transfers it from the reward vault, advances
`last_reward_claim` and emits `RewardsClaimed`; when zero it is a successful
no-op. -/
def claim_rewards (s : StakeAccount) (caller : Pubkey) (now : Int) :
    Outcome GamingTokenError (StakeAccount × Nat × Option RewardsClaimed) :=
  if s.is_active then
    if caller = s.owner then
      match checkedMul64 s.amount 5 with
      | none => .trap
      | some a5 =>
        match checkedMul64 a5 (i64ToU64 (now - s.last_reward_claim)) with
        | none => .trap
        | some prod =>
          let reward_amount := prod / (100 * 365 * 24 * 60 * 60)
          if reward_amount > 0 then
            .ok ({ s with last_reward_claim := now }, reward_amount,
              some { owner := s.owner, amount := reward_amount,
                     timestamp := now })
          else
            .ok (s, 0, none)
    else .fail .Unauthorized
  else .fail .StakeNotActive

end GamingToken

namespace Memecoin

/-- Error enum of `programs/memecoin/src/lib.rs`. -/
inductive MemecoinError where
  | NameTooLong
  | SymbolTooLong
  | InvalidDecimals
  | InvalidSupply
  | InvalidAmount
  | GameIdTooLong
  | Unauthorized
  | AlreadyDistributed
  | InsufficientRewards
  | AlreadyClaimed
  | AirdropNotAvailable
  | InvalidClaimTime
deriving DecidableEq, Repr

/-- `MemecoinConfig` account. -/
structure MemecoinConfig where
  authority : Pubkey
  mint : Pubkey
  token_name : String
  token_symbol : String
  decimals : Nat
  total_supply : Nat
  circulating_supply : Nat
  game_rewards_pool : Nat
  liquidity_pool : Nat
  team_allocation : Nat
  community_allocation : Nat
  is_initialized : Bool
  created_at : Int
deriving DecidableEq, Repr

/-- `AirdropAccount` account.  The source declares `claimed_at` as
`Option<i64>` but the handler reads and writes it as a bare `i64`
(`airdrop_account.claimed_at = clock.unix_timestamp`), so it is modelled as
an integer. -/
structure AirdropAccount where
  recipient : Pubkey
  mint : Pubkey
  amount : Nat
  claimable_at : Int
  claimed : Bool
  created_at : Int
  claimed_at : Int
deriving DecidableEq, Repr

/-- `MemecoinInitialized` event. -/
structure MemecoinInitialized where
  mint : Pubkey
  name : String
  symbol : String
  total_supply : Nat
  authority : Pubkey
  timestamp : Int
deriving DecidableEq, Repr

/-- `AirdropClaimed` event. -/
structure AirdropClaimed where
  recipient : Pubkey
  amount : Nat
  timestamp : Int
deriving DecidableEq, Repr

/-- `initialize_memecoin` handler: validates the name, symbol, decimals and
supply, then fills the config with the 40/30/20/10 pool split computed by
checked multiplication followed by floor division by 100, exactly as the
source lines 36-39. -/
def initialize_memecoin (authority mint : Pubkey)
    (token_name token_symbol : String) (decimals total_supply : Nat)
    (now : Int) : Outcome MemecoinError MemecoinConfig :=
  if token_name.length ≤ 32 then
    if token_symbol.length ≤ 10 then
      if decimals ≤ 9 then
        if total_supply > 0 then
          match checkedMul64 total_supply 40 with
          | none => .trap
          | some g40 =>
            match checkedMul64 total_supply 30 with
            | none => .trap
            | some l30 =>
              match checkedMul64 total_supply 20 with
              | none => .trap
              | some t20 =>
                match checkedMul64 total_supply 10 with
                | none => .trap
                | some c10 =>
                    .ok { authority := authority, mint := mint,
                          token_name := token_name,
                          token_symbol := token_symbol,
                          decimals := decimals,
                          total_supply := total_supply,
                          circulating_supply := 0,
                          game_rewards_pool := g40 / 100,
                          liquidity_pool := l30 / 100,
                          team_allocation := t20 / 100,
                          community_allocation := c10 / 100,
                          is_initialized := true,
                          created_at := now }
        else .fail .InvalidSupply
      else .fail .InvalidDecimals
    else .fail .SymbolTooLong
  else .fail .NameTooLong

/-- `claim_airdrop` handler: requires the caller to be the recorded
recipient, the airdrop to be unclaimed and `now ≥ claimable_at`; transfers
the stored `amount` from the airdrop pool to the recipient and marks the
account claimed at `now`. -/
def claim_airdrop (a : AirdropAccount) (caller : Pubkey) (now : Int) :
    Outcome MemecoinError (AirdropAccount × Nat × AirdropClaimed) :=
  if caller = a.recipient then
    if a.claimed then .fail .AlreadyClaimed
    else
      if a.claimable_at ≤ now then
        .ok ({ a with claimed := true, claimed_at := now }, a.amount,
          { recipient := a.recipient, amount := a.amount, timestamp := now })
      else .fail .AirdropNotAvailable
  else .fail .Unauthorized

end Memecoin

namespace Solitaire

/-- Error enum of `programs/solitaire/src/lib.rs`. -/
inductive SolitaireError where
  | InvalidStakeAmount
  | GameIdTooLong
  | GameNotActive
  | Unauthorized
  | InvalidMove
  | WithdrawalTooEarly
  | InsufficientFunds
  | GameStateError
deriving DecidableEq, Repr

/-- `GameStatus` enum. -/
inductive GameStatus where
  | Active
  | Completed
  | Abandoned
deriving DecidableEq, Repr

/-- `PileType` enum. -/
inductive PileType where
  | Tableau
  | Foundation
  | Stock
  | Waste
deriving DecidableEq, Repr

/-- `CardData` struct. -/
structure CardData where
  suit : Nat
  rank : Nat
  face_up : Bool
deriving DecidableEq, Repr

/-- `PileData` struct. -/
structure PileData where
  id : String
  pile_type : PileType
  cards : List CardData
deriving DecidableEq, Repr

/-- Embedded `GameState` struct. -/
structure GameState where
  player : Pubkey
  piles : List PileData
  moves : Nat
  score : Nat
  is_won : Bool
  is_complete : Bool
  start_time : Int
  end_time : Option Int
deriving DecidableEq, Repr

/-- `GameState::new`: fresh state with empty piles, zero counters and
`is_won = false`; `start_time` is the host clock read during the
instruction. -/
def GameState.new (player : Pubkey) (now : Int) : GameState :=
  { player := player, piles := [], moves := 0, score := 0, is_won := false,
    is_complete := false, start_time := now, end_time := none }

/-- `GameState::make_move`: the reference stub only increments the embedded
`moves` (u32, checked) and adds 10 to the embedded `score` (u64, checked);
it returns `Ok(())` otherwise, so the only failure mode is the overflow
abort, modelled as `none`.  The pile arguments are ignored by the stub. -/
def GameState.make_move (gs : GameState) (from_pile to_pile : String)
    (card_index : Nat) : Option GameState :=
  match checkedAdd32 gs.moves 1 with
  | none => none
  | some m =>
    match checkedAdd64 gs.score 10 with
    | none => none
    | some sc => some { gs with moves := m, score := sc }

/-- `GameAccount` account.  The source never writes `bump` in
`initialize_game`, so a fresh account keeps the zeroed default. -/
structure GameAccount where
  authority : Pubkey
  game_id : String
  stake_amount : Nat
  reward_mint : Pubkey
  status : GameStatus
  moves : Nat
  score : Nat
  is_won : Bool
  created_at : Int
  updated_at : Int
  game_state : GameState
  bump : Nat
deriving DecidableEq, Repr

/-- `GameStarted` event. -/
structure GameStarted where
  game_id : String
  player : Pubkey
  stake_amount : Nat
  timestamp : Int
deriving DecidableEq, Repr

/-- `MoveMade` event. -/
structure MoveMade where
  game_id : String
  player : Pubkey
  from_pile : String
  to_pile : String
  card_index : Nat
  moves : Nat
  timestamp : Int
deriving DecidableEq, Repr

/-- `GameCompleted` event. -/
structure GameCompleted where
  game_id : String
  player : Pubkey
  won : Bool
  score : Nat
  moves : Nat
  timestamp : Int
deriving DecidableEq, Repr

/-- `StakeWithdrawn` event. -/
structure StakeWithdrawn where
  game_id : String
  player : Pubkey
  amount : Nat
  penalty : Nat
  timestamp : Int
deriving DecidableEq, Repr

/-- Events emitted by a single solitaire instruction, in emission order. -/
inductive SolitaireEvent where
  | started : GameStarted → SolitaireEvent
  | moved : MoveMade → SolitaireEvent
  | completed : GameCompleted → SolitaireEvent
  | withdrawn : StakeWithdrawn → SolitaireEvent
deriving DecidableEq, Repr

/-- `initialize_game` handler: validates `stake_amount > 0` and
`game_id.len ≤ 32`, creates the active game record with zero counters and a
fresh `GameState`, and transfers the stake into the escrow. -/
def initialize_game (authority : Pubkey) (game_id : String)
    (stake_amount : Nat) (reward_mint : Pubkey) (now : Int) :
    Outcome SolitaireError (GameAccount × Nat × GameStarted) :=
  if stake_amount > 0 then
    if game_id.length ≤ 32 then
      .ok ({ authority := authority, game_id := game_id,
             stake_amount := stake_amount, reward_mint := reward_mint,
             status := .Active, moves := 0, score := 0, is_won := false,
             created_at := now, updated_at := now,
             game_state := GameState.new authority now, bump := 0 },
           stake_amount,
           { game_id := game_id, player := authority,
             stake_amount := stake_amount, timestamp := now })
    else .fail .GameIdTooLong
  else .fail .InvalidStakeAmount

/-- `make_move` handler: requires an active game and the caller to be the
authority; runs the `GameState` stub, increments the account-level `moves`
(the account-level `score` is untouched), stamps `updated_at`, takes the win
branch when the updated `game_state.is_won` flag is set (`GameState::is_won`
returns the stored flag), and emits `GameCompleted` (win branch only)
followed by `MoveMade`. -/
def make_move (g : GameAccount) (caller : Pubkey) (from_pile to_pile : String)
    (card_index : Nat) (now : Int) :
    Outcome SolitaireError (GameAccount × List SolitaireEvent) :=
  if g.status = .Active then
    if caller = g.authority then
      match g.game_state.make_move from_pile to_pile card_index with
      | none => .trap
      | some gs =>
        match checkedAdd32 g.moves 1 with
        | none => .trap
        | some m =>
          let g1 : GameAccount :=
            { g with game_state := gs, moves := m, updated_at := now }
          if g1.game_state.is_won then
            let g2 : GameAccount :=
              { g1 with is_won := true, status := .Completed }
            .ok (g2,
              [ .completed { game_id := g2.game_id, player := g2.authority,
                             won := true, score := g2.score, moves := g2.moves,
                             timestamp := now },
                .moved { game_id := g2.game_id, player := g2.authority,
                         from_pile := from_pile, to_pile := to_pile,
                         card_index := card_index, moves := g2.moves,
                         timestamp := now } ])
          else
            .ok (g1,
              [ .moved { game_id := g1.game_id, player := g1.authority,
                         from_pile := from_pile, to_pile := to_pile,
                         card_index := card_index, moves := g1.moves,
                         timestamp := now } ])
    else .fail .Unauthorized
  else .fail .GameNotActive

/-- `complete_game` handler: requires an active game and the caller to be
the authority; marks the game completed with `score = final_score`, latches
`is_won` from the embedded state, and pays `stake_amount * 2` (checked) on a
win or `stake_amount / 2` otherwise out of the escrow. -/
def complete_game (g : GameAccount) (caller : Pubkey) (final_score : Nat)
    (now : Int) :
    Outcome SolitaireError (GameAccount × Nat × GameCompleted) :=
  if g.status = .Active then
    if caller = g.authority then
      let g1 : GameAccount :=
        { g with status := .Completed, score := final_score,
                 is_won := g.game_state.is_won, updated_at := now }
      if g1.is_won then
        match checkedMul64 g.stake_amount 2 with
        | none => .trap
        | some reward_amount =>
            .ok (g1, reward_amount,
              { game_id := g1.game_id, player := g1.authority, won := g1.is_won,
                score := final_score, moves := g1.moves, timestamp := now })
      else
        .ok (g1, g.stake_amount / 2,
          { game_id := g1.game_id, player := g1.authority, won := g1.is_won,
            score := final_score, moves := g1.moves, timestamp := now })
    else .fail .Unauthorized
  else .fail .GameNotActive

/-- `withdraw_stake` handler: requires an active game, the caller to be the
authority and at least 86 400 s since `updated_at`; abandons the game and
refunds `stake_amount - stake_amount / 10` (a 10% penalty stays in
escrow). -/
def withdraw_stake (g : GameAccount) (caller : Pubkey) (now : Int) :
    Outcome SolitaireError (GameAccount × Nat × StakeWithdrawn) :=
  if g.status = .Active then
    if caller = g.authority then
      if now - g.updated_at ≥ 86400 then
        let penalty := g.stake_amount / 10
        let refund_amount := g.stake_amount - penalty
        .ok ({ g with status := .Abandoned, updated_at := now },
          refund_amount,
          { game_id := g.game_id, player := g.authority,
            amount := refund_amount, penalty := penalty, timestamp := now })
      else .fail .WithdrawalTooEarly
    else .fail .Unauthorized
  else .fail .GameNotActive

/-- Game records reachable through the solitaire instruction surface:
created by a successful `initialize_game` and transformed by successful
`make_move`, `complete_game` and `withdraw_stake` calls. -/
inductive Reachable : GameAccount → Prop where
  | init : ∀ (authority : Pubkey) (game_id : String) (stake_amount : Nat)
      (reward_mint : Pubkey) (now : Int) (g : GameAccount) (t : Nat)
      (ev : GameStarted),
      initialize_game authority game_id stake_amount reward_mint now =
        .ok (g, t, ev) → Reachable g
  | move : ∀ (g : GameAccount) (caller : Pubkey) (fp tp : String) (ci : Nat)
      (now : Int) (g2 : GameAccount) (evs : List SolitaireEvent),
      Reachable g → make_move g caller fp tp ci now = .ok (g2, evs) →
      Reachable g2
  | complete : ∀ (g : GameAccount) (caller : Pubkey) (fs : Nat) (now : Int)
      (g2 : GameAccount) (t : Nat) (ev : GameCompleted),
      Reachable g → complete_game g caller fs now = .ok (g2, t, ev) →
      Reachable g2
  | withdraw : ∀ (g : GameAccount) (caller : Pubkey) (now : Int)
      (g2 : GameAccount) (t : Nat) (ev : StakeWithdrawn),
      Reachable g → withdraw_stake g caller now = .ok (g2, t, ev) →
      Reachable g2

end Solitaire

open GamingToken Memecoin Solitaire

/-! ## Concrete fixtures used by the witnesses and counterexamples -/

/-- Stake of spec scenario 2: 1 000 000 tokens locked for one year. -/
def stakeYear : StakeAccount :=
  { owner := 1, mint := 2, amount := 1000000, lock_until := 31536000,
    created_at := 0, last_reward_claim := 0, is_active := true }

/-- A mint config whose supply is large enough for one more large mint to
overflow u64. -/
def mintBig : MintConfig :=
  { authority := 1, mint := 2, token_name := "GoldCoin", token_symbol := "GLD",
    decimals := 6, total_supply := 2 ^ 63, is_initialized := true,
    created_at := 0 }

/-- An unlocked stake so large that `amount * 5 * time` overflows u64. -/
def stakeBig : StakeAccount :=
  { owner := 1, mint := 2, amount := 2 ^ 62, lock_until := 0,
    created_at := 0, last_reward_claim := 0, is_active := true }

/-- The airdrop of spec scenario 5: 500 tokens claimable at t = 3600. -/
def airdropDemo : AirdropAccount :=
  { recipient := 1, mint := 2, amount := 500, claimable_at := 3600,
    claimed := false, created_at := 0, claimed_at := 0 }

/-- The freshly initialized game of spec scenario 6
(`initialize_game("g1", stake=100, …)` at t = 0). -/
def gameDemo : GameAccount :=
  { authority := 1, game_id := "g1", stake_amount := 100, reward_mint := 2,
    status := .Active, moves := 0, score := 0, is_won := false,
    created_at := 0, updated_at := 0, game_state := GameState.new 1 0,
    bump := 0 }

/-- An active game whose embedded state claims a win and whose doubled stake
overflows u64. -/
def gameWonBig : GameAccount :=
  { authority := 1, game_id := "g1", stake_amount := 2 ^ 63, reward_mint := 2,
    status := .Active, moves := 0, score := 0, is_won := false,
    created_at := 0, updated_at := 0,
    game_state := { player := 1, piles := [], moves := 0, score := 0,
                    is_won := true, is_complete := false, start_time := 0,
                    end_time := none },
    bump := 0 }

/-- Spec scenario 6 run: `initialize_game("g1", stake=100, …)` followed by
two `make_move` calls, returning the resulting game record. -/
def c2TwoMoves : Option GameAccount :=
  match initialize_game 1 "g1" 100 2 0 with
  | .ok (g0, _, _) =>
    match make_move g0 1 "stock" "waste" 0 1 with
    | .ok (g1, _) =>
      match make_move g1 1 "waste" "tableau1" 0 2 with
      | .ok (g2, _) => some g2
      | _ => none
    | _ => none
  | _ => none

/-- The account-level `score` field after the scenario-6 run. -/
def c2AccountScore : Option Nat :=
  match c2TwoMoves with
  | some g => some g.score
  | none => none

/-- `(moves, score, game_state.score)` of the game record after the
scenario-6 run. -/
def c2Observed : Option (Nat × Nat × Nat) :=
  match c2TwoMoves with
  | some g => some (g.moves, g.score, g.game_state.score)
  | none => none

/-! ## C1 -/

/-- C1: for an active stake with `now ≥ lock_until` (equality included),
`unstake_tokens` pays `amount + amount * 5 * (now − created_at) /
(100 * 365 * 24 * 60 * 60)` out of the stake vault — the reward reads
`created_at`, not `last_reward_claim` — and sets `active := false`; with
`now < lock_until` it fails with `TokensStillLocked`, and on an inactive
stake it fails with `StakeNotActive`.  The two side hypotheses keep the
`i64 as u64` cast of the elapsed time faithful, and the in-range hypotheses
mirror the checked u64 arithmetic. -/
theorem C1_unstake_tokens_spec (s : StakeAccount) (now : Int)
    (hca : s.created_at ≤ now) (hfit : now - s.created_at < 2 ^ 64) :
    (s.is_active = true → s.lock_until ≤ now →
      s.amount * 5 < 2 ^ 64 →
      s.amount * 5 * (now - s.created_at).toNat < 2 ^ 64 →
      s.amount + s.amount * 5 * (now - s.created_at).toNat /
          (100 * 365 * 24 * 60 * 60) < 2 ^ 64 →
      unstake_tokens s s.owner now =
        .ok ({ s with is_active := false },
          s.amount + s.amount * 5 * (now - s.created_at).toNat /
            (100 * 365 * 24 * 60 * 60),
          { owner := s.owner, principal := s.amount,
            reward := s.amount * 5 * (now - s.created_at).toNat /
              (100 * 365 * 24 * 60 * 60),
            total := s.amount + s.amount * 5 * (now - s.created_at).toNat /
              (100 * 365 * 24 * 60 * 60),
            timestamp := now })) ∧
    (s.is_active = true → now < s.lock_until →
      unstake_tokens s s.owner now = .fail .TokensStillLocked) ∧
    (s.is_active = false → ∀ caller : Pubkey,
      unstake_tokens s caller now = .fail .StakeNotActive) := by
  refine ⟨?_, ?_, ?_⟩
  · intro hact hlock h1 h2 h3
    have ht : i64ToU64 (now - s.created_at) = (now - s.created_at).toNat :=
      i64ToU64_of_nonneg _ (by omega) hfit
    norm_num at h1 h2 h3
    simp [unstake_tokens, hact, hlock, ht, checkedMul64, checkedAdd64,
      h1, h2, h3]
  · intro hact hlock
    simp [unstake_tokens, hact, not_le.mpr hlock]
  · intro hact caller
    simp [unstake_tokens, hact]

/-- Witness for C1: the literal stake of spec scenario 2, unstaked exactly at
`lock_until`, pays 1 050 000 (principal plus one year of 5% rewards). -/
theorem C1_unstake_tokens_spec_witness :
    unstake_tokens stakeYear stakeYear.owner 31536000 =
      .ok ({ stakeYear with is_active := false }, 1050000,
        { owner := 1, principal := 1000000, reward := 50000,
          total := 1050000, timestamp := 31536000 }) := by
  have h := (C1_unstake_tokens_spec stakeYear 31536000 (by decide)
      (by decide)).1 (by decide) (by decide) (by decide) (by decide)
      (by decide)
  rw [h]
  decide

/-! ## C4 -/

/-- C4: for an active stake owned by the caller, `claim_rewards` computes
`reward = amount * 5 * (now − last_reward_claim) / (100 * 365 * 24 * 60 *
60)` by truncating division; a positive reward is transferred from the
reward vault, advances `last_reward_claim` to `now` and emits
`RewardsClaimed`, while a zero reward (in particular at
`now = last_reward_claim`) transfers nothing, emits nothing, leaves the
stake unchanged and still succeeds. -/
theorem C4_claim_rewards_spec (s : StakeAccount) (now : Int)
    (hlc : s.last_reward_claim ≤ now)
    (hfit : now - s.last_reward_claim < 2 ^ 64)
    (hact : s.is_active = true)
    (h5 : s.amount * 5 < 2 ^ 64)
    (hmul : s.amount * 5 * (now - s.last_reward_claim).toNat < 2 ^ 64) :
    (0 < s.amount * 5 * (now - s.last_reward_claim).toNat /
        (100 * 365 * 24 * 60 * 60) →
      claim_rewards s s.owner now =
        .ok ({ s with last_reward_claim := now },
          s.amount * 5 * (now - s.last_reward_claim).toNat /
            (100 * 365 * 24 * 60 * 60),
          some { owner := s.owner,
                 amount := s.amount * 5 * (now - s.last_reward_claim).toNat /
                   (100 * 365 * 24 * 60 * 60),
                 timestamp := now })) ∧
    (s.amount * 5 * (now - s.last_reward_claim).toNat /
        (100 * 365 * 24 * 60 * 60) = 0 →
      claim_rewards s s.owner now = .ok (s, 0, none)) ∧
    (now = s.last_reward_claim →
      claim_rewards s s.owner now = .ok (s, 0, none)) := by
  have ht : i64ToU64 (now - s.last_reward_claim) =
      (now - s.last_reward_claim).toNat :=
    i64ToU64_of_nonneg _ (by omega) hfit
  norm_num at h5 hmul
  refine ⟨?_, ?_, ?_⟩
  · intro hpos
    norm_num at hpos
    simp [claim_rewards, hact, ht, checkedMul64, h5, hmul, hpos]
  · intro hzero
    norm_num at hzero
    simp [claim_rewards, hact, ht, checkedMul64, h5, hmul, hzero]
  · intro heq
    have hzero : s.amount * 5 * (now - s.last_reward_claim).toNat /
        3153600000 = 0 := by
      rw [heq]
      simp
    simp [claim_rewards, hact, ht, checkedMul64, h5, hmul, hzero]

/-- Witness for C4: the scenario-3 stake claims after half a year and
receives 25 000; claiming again immediately is a successful no-op with no
event. -/
theorem C4_claim_rewards_spec_witness :
    claim_rewards stakeYear stakeYear.owner 15768000 =
      .ok ({ stakeYear with last_reward_claim := 15768000 }, 25000,
        some { owner := 1, amount := 25000, timestamp := 15768000 }) := by
  have h := (C4_claim_rewards_spec stakeYear 15768000 (by decide) (by decide)
      (by decide) (by decide) (by decide)).1 (by decide)
  rw [h]
  decide

/-! ## C5 -/

/-- C5: overflowing u64 arithmetic aborts the instruction instead of
wrapping: `total_supply + amount` in `mint_tokens`, the
`amount * 5 * time_delta` products of the two reward computations, and
`2 * stake_amount` in the winning branch of `complete_game`. -/
theorem C5_overflow_traps :
    (∀ (c : MintConfig) (token_account : Pubkey) (amount : Nat) (now : Int),
      0 < amount → 2 ^ 64 ≤ c.total_supply + amount →
      mint_tokens c c.authority token_account amount now = .trap) ∧
    (∀ (s : StakeAccount) (now : Int),
      s.is_active = true → s.lock_until ≤ now →
      2 ^ 64 ≤ s.amount * 5 * i64ToU64 (now - s.created_at) →
      unstake_tokens s s.owner now = .trap) ∧
    (∀ (s : StakeAccount) (now : Int),
      s.is_active = true →
      2 ^ 64 ≤ s.amount * 5 * i64ToU64 (now - s.last_reward_claim) →
      claim_rewards s s.owner now = .trap) ∧
    (∀ (g : GameAccount) (fs : Nat) (now : Int),
      g.status = .Active → g.game_state.is_won = true →
      2 ^ 64 ≤ 2 * g.stake_amount →
      complete_game g g.authority fs now = .trap) := by
  refine ⟨?_, ?_, ?_, ?_⟩
  · intro c token_account amount now hpos hov
    have hn : ¬ c.total_supply + amount < 18446744073709551616 := by
      norm_num at hov
      omega
    simp [mint_tokens, hpos, checkedAdd64, hn]
  · intro s now hact hlock hov
    norm_num at hov
    by_cases h5 : s.amount * 5 < 18446744073709551616
    · have hn : ¬ s.amount * 5 * i64ToU64 (now - s.created_at) <
          18446744073709551616 := by omega
      simp [unstake_tokens, hact, hlock, checkedMul64, h5, hn]
    · simp [unstake_tokens, hact, hlock, checkedMul64, h5]
  · intro s now hact hov
    norm_num at hov
    by_cases h5 : s.amount * 5 < 18446744073709551616
    · have hn : ¬ s.amount * 5 * i64ToU64 (now - s.last_reward_claim) <
          18446744073709551616 := by omega
      simp [claim_rewards, hact, checkedMul64, h5, hn]
    · simp [claim_rewards, hact, checkedMul64, h5]
  · intro g fs now hst hwon hov
    have hn : ¬ g.stake_amount * 2 < 18446744073709551616 := by
      norm_num at hov
      omega
    simp [complete_game, hst, hwon, checkedMul64, hn]

/-- Witness for C5: concrete overflowing inputs for all four spots. -/
theorem C5_overflow_traps_witness :
    mint_tokens mintBig mintBig.authority 7 (2 ^ 63) 0 = .trap ∧
    unstake_tokens stakeBig stakeBig.owner 4 = .trap ∧
    claim_rewards stakeBig stakeBig.owner 4 = .trap ∧
    complete_game gameWonBig gameWonBig.authority 42 0 = .trap := by
  refine ⟨C5_overflow_traps.1 mintBig 7 (2 ^ 63) 0 (by decide) (by decide),
          C5_overflow_traps.2.1 stakeBig 4 (by decide) (by decide) (by decide),
          C5_overflow_traps.2.2.1 stakeBig 4 (by decide) (by decide),
          C5_overflow_traps.2.2.2 gameWonBig 42 0 (by decide) (by decide)
            (by decide)⟩

/-! ## C6 -/

/-- The 40/30/20/10 floor-division split of `t` adds back up to `t` exactly
when `t` is divisible by 10, and falls strictly short otherwise. -/
theorem pool_split_arith (t : Nat) :
    (t * 40 / 100 + t * 30 / 100 + t * 20 / 100 + t * 10 / 100 = t ↔
      t % 10 = 0) ∧
    (t % 10 ≠ 0 →
      t * 40 / 100 + t * 30 / 100 + t * 20 / 100 + t * 10 / 100 < t) := by
  obtain ⟨q, r, hr, rfl⟩ : ∃ q r, r < 10 ∧ t = 10 * q + r :=
    ⟨t / 10, t % 10, by omega, by omega⟩
  interval_cases r <;> omega

/-- C6: for any positive supply (whose 40-fold product stays in u64),
`initialize_memecoin` fills the four pools with `total_supply * p / 100`,
`p ∈ {40, 30, 20, 10}`, by floor division, and the four pools sum back to
`total_supply` exactly when `total_supply` is divisible by 10; otherwise the
sum falls strictly short and the remainder stays unallocated. -/
theorem C6_pool_split_spec (authority mint : Pubkey)
    (token_name token_symbol : String) (decimals total_supply : Nat)
    (now : Int)
    (hn : token_name.length ≤ 32) (hs : token_symbol.length ≤ 10)
    (hd : decimals ≤ 9) (hpos : 0 < total_supply)
    (hov : total_supply * 40 < 2 ^ 64) :
    initialize_memecoin authority mint token_name token_symbol decimals
        total_supply now =
      .ok { authority := authority, mint := mint, token_name := token_name,
            token_symbol := token_symbol, decimals := decimals,
            total_supply := total_supply, circulating_supply := 0,
            game_rewards_pool := total_supply * 40 / 100,
            liquidity_pool := total_supply * 30 / 100,
            team_allocation := total_supply * 20 / 100,
            community_allocation := total_supply * 10 / 100,
            is_initialized := true, created_at := now } ∧
    (total_supply * 40 / 100 + total_supply * 30 / 100 +
        total_supply * 20 / 100 + total_supply * 10 / 100 = total_supply ↔
      total_supply % 10 = 0) ∧
    (total_supply % 10 ≠ 0 →
      total_supply * 40 / 100 + total_supply * 30 / 100 +
        total_supply * 20 / 100 + total_supply * 10 / 100 < total_supply) := by
  refine ⟨?_, (pool_split_arith total_supply).1,
    (pool_split_arith total_supply).2⟩
  have h30 : total_supply * 30 < 2 ^ 64 := by omega
  have h20 : total_supply * 20 < 2 ^ 64 := by omega
  have h10 : total_supply * 10 < 2 ^ 64 := by omega
  norm_num at hov h30 h20 h10
  simp [initialize_memecoin, hn, hs, hd, hpos, checkedMul64, hov, h30, h20,
    h10]

/-- Witness for C6: scenario 4 (`total_supply = 1 000 000 000`) gives the
400M/300M/200M/100M split summing to the full supply, while a supply of 15
allocates only 6 + 4 + 3 + 1 = 14, leaving 1 unallocated. -/
theorem C6_pool_split_spec_witness :
    initialize_memecoin 1 2 "Meme" "MM" 6 1000000000 0 =
      .ok { authority := 1, mint := 2, token_name := "Meme",
            token_symbol := "MM", decimals := 6, total_supply := 1000000000,
            circulating_supply := 0, game_rewards_pool := 400000000,
            liquidity_pool := 300000000, team_allocation := 200000000,
            community_allocation := 100000000, is_initialized := true,
            created_at := 0 } ∧
    (400000000 + 300000000 + 200000000 + 100000000 = 1000000000) ∧
    (15 * 40 / 100 + 15 * 30 / 100 + 15 * 20 / 100 + 15 * 10 / 100 < 15) := by
  refine ⟨?_, by norm_num, ?_⟩
  · have h := (C6_pool_split_spec 1 2 "Meme" "MM" 6 1000000000 0 (by decide)
        (by decide) (by decide) (by decide) (by decide)).1
    rw [h]
  · exact (C6_pool_split_spec 1 2 "Meme" "MM" 6 15 0 (by decide) (by decide)
      (by decide) (by decide) (by decide)).2.2 (by decide)

/-! ## C7 -/

/-- C7: `claim_airdrop` succeeds exactly when the caller is the recorded
recipient, the airdrop is unclaimed and `now ≥ claimable_at` (equality
succeeds); success transfers the stored amount from the airdrop pool to the
recipient and sets `claimed := true`, `claimed_at := now`, so every
successful outcome satisfies `claimed → claimed_at ≥ claimable_at`; too
early it fails `AirdropNotAvailable`, already claimed it fails
`AlreadyClaimed`, and a foreign caller fails `Unauthorized`. -/
theorem C7_claim_airdrop_spec (a : AirdropAccount) (caller : Pubkey)
    (now : Int) :
    ((∃ r, claim_airdrop a caller now = .ok r) ↔
      (caller = a.recipient ∧ a.claimed = false ∧ a.claimable_at ≤ now)) ∧
    (caller = a.recipient → a.claimed = false → a.claimable_at ≤ now →
      claim_airdrop a caller now =
        .ok ({ a with claimed := true, claimed_at := now }, a.amount,
          { recipient := a.recipient, amount := a.amount,
            timestamp := now })) ∧
    (∀ a2 t ev, claim_airdrop a caller now = .ok (a2, t, ev) →
      a2.claimed = true ∧ a2.claimable_at ≤ a2.claimed_at) ∧
    (caller = a.recipient → a.claimed = false → now < a.claimable_at →
      claim_airdrop a caller now = .fail .AirdropNotAvailable) ∧
    (caller = a.recipient → a.claimed = true →
      claim_airdrop a caller now = .fail .AlreadyClaimed) ∧
    (caller ≠ a.recipient →
      claim_airdrop a caller now = .fail .Unauthorized) := by
  refine ⟨⟨?_, ?_⟩, ?_, ?_, ?_, ?_, ?_⟩
  · rintro ⟨r, hr⟩
    by_cases h1 : caller = a.recipient
    · by_cases h2 : a.claimed
      · simp [claim_airdrop, h1, h2] at hr
      · by_cases h3 : a.claimable_at ≤ now
        · exact ⟨h1, by simpa using h2, h3⟩
        · simp [claim_airdrop, h1, h2, h3] at hr
    · simp [claim_airdrop, h1] at hr
  · rintro ⟨h1, h2, h3⟩
    exact ⟨({ a with claimed := true, claimed_at := now }, a.amount,
      { recipient := a.recipient, amount := a.amount, timestamp := now }),
      by simp [claim_airdrop, h1, h2, h3]⟩
  · intro h1 h2 h3
    simp [claim_airdrop, h1, h2, h3]
  · intro a2 t ev hr
    by_cases h1 : caller = a.recipient
    · by_cases h2 : a.claimed
      · simp [claim_airdrop, h1, h2] at hr
      · by_cases h3 : a.claimable_at ≤ now
        · simp [claim_airdrop, h1, h2, h3] at hr
          obtain ⟨ha2, -, -⟩ := hr
          subst ha2
          exact ⟨rfl, h3⟩
        · simp [claim_airdrop, h1, h2, h3] at hr
    · simp [claim_airdrop, h1] at hr
  · intro h1 h2 h3
    simp [claim_airdrop, h1, h2, not_le.mpr h3]
  · intro h1 h2
    simp [claim_airdrop, h1, h2]
  · intro h1
    simp [claim_airdrop, h1]

/-- Witness for C7: spec scenario 5 — claiming at `t = claimable_at = 3600`
succeeds with a 500-token transfer, one second earlier fails
`AirdropNotAvailable`. -/
theorem C7_claim_airdrop_spec_witness :
    claim_airdrop airdropDemo 1 3600 =
      .ok ({ airdropDemo with claimed := true, claimed_at := 3600 }, 500,
        { recipient := 1, amount := 500, timestamp := 3600 }) ∧
    claim_airdrop airdropDemo 1 3599 = .fail .AirdropNotAvailable := by
  constructor
  · have h := (C7_claim_airdrop_spec airdropDemo 1 3600).2.1 (by decide)
      (by decide) (by decide)
    rw [h]
    decide
  · exact (C7_claim_airdrop_spec airdropDemo 1 3599).2.2.2.1 (by decide)
      (by decide) (by decide)

/-! ## C2 -/

/-- Counterexample to C2: running `initialize_game("g1", stake=100, …)` and
two `make_move` calls leaves the game account with `moves = 2` but with its
`score` field still `0` — only the embedded `game_state.score` reaches 20 —
so the claimed post-state `moves=2 ∧ score=20` of the game account is false.
`c2Observed` is `(moves, score, game_state.score)`. -/
theorem C2_counterexample :
    c2Observed = some (2, 0, 20) ∧ c2AccountScore ≠ some 20 := by
  constructor
  · decide
  · decide

/-- C2 as amended: `make_move` on an active game (caller = authority)
increments the account-level `moves` and the embedded `game_state.moves` by
1 and adds 10 to the embedded `game_state.score`, leaving the account-level
`score` field untouched, and stamps `updated_at = now`; consequently after
`initialize_game("g1", stake=100, …)` and two `make_move` calls the account
has `moves = 2`, `score = 0` and `game_state.score = 20`. -/
theorem C2_make_move_amended :
    (∀ (g : GameAccount) (caller : Pubkey) (fp tp : String) (ci : Nat)
      (now : Int),
      g.status = .Active → caller = g.authority →
      g.game_state.is_won = false →
      g.game_state.moves + 1 < 2 ^ 32 → g.game_state.score + 10 < 2 ^ 64 →
      g.moves + 1 < 2 ^ 32 →
      make_move g caller fp tp ci now =
        .ok ({ g with
               game_state := { g.game_state with
                               moves := g.game_state.moves + 1,
                               score := g.game_state.score + 10 },
               moves := g.moves + 1, updated_at := now },
          [ .moved { game_id := g.game_id, player := g.authority,
                     from_pile := fp, to_pile := tp, card_index := ci,
                     moves := g.moves + 1, timestamp := now } ])) ∧
    c2Observed = some (2, 0, 20) := by
  constructor
  · intro g caller fp tp ci now hst hau hwon h1 h2 h3
    norm_num at h1 h2 h3
    simp [make_move, GameState.make_move, checkedAdd32, checkedAdd64,
      hst, hau, hwon, h1, h2, h3]
  · decide

/-- Witness for the amended C2: one concrete move on the freshly
initialized scenario-6 game. -/
theorem C2_make_move_amended_witness :
    make_move gameDemo 1 "stock" "waste" 0 5 =
      .ok ({ gameDemo with
             game_state := { gameDemo.game_state with
                             moves := 1,
                             score := 10 },
             moves := 1, updated_at := 5 },
        [ .moved { game_id := "g1", player := 1, from_pile := "stock",
                   to_pile := "waste", card_index := 0, moves := 1,
                   timestamp := 5 } ]) := by
  have h := C2_make_move_amended.1 gameDemo 1 "stock" "waste" 0 5 (by decide)
    (by decide) (by decide) (by decide) (by decide) (by decide)
  rw [h]
  decide

/-! ## C3 -/

/-- C3: `complete_game(final_score)` on an active game whose caller is the
authority pays `stake_amount * 2` from the escrow when the embedded win
flag is set (checked multiplication) and `stake_amount / 2` (floor)
otherwise, and marks the game `Completed` with `score = final_score`; on a
non-active game it fails with `GameNotActive`. -/
theorem C3_complete_game_spec (g : GameAccount) (caller : Pubkey)
    (final_score : Nat) (now : Int) :
    (g.status = .Active → caller = g.authority →
      g.game_state.is_won = true → g.stake_amount * 2 < 2 ^ 64 →
      complete_game g caller final_score now =
        .ok ({ g with
               status := .Completed, score := final_score,
               is_won := true, updated_at := now },
          g.stake_amount * 2,
          { game_id := g.game_id, player := g.authority, won := true,
            score := final_score, moves := g.moves, timestamp := now })) ∧
    (g.status = .Active → caller = g.authority →
      g.game_state.is_won = false →
      complete_game g caller final_score now =
        .ok ({ g with
               status := .Completed, score := final_score,
               is_won := false, updated_at := now },
          g.stake_amount / 2,
          { game_id := g.game_id, player := g.authority, won := false,
            score := final_score, moves := g.moves, timestamp := now })) ∧
    (g.status ≠ .Active →
      complete_game g caller final_score now = .fail .GameNotActive) := by
  refine ⟨?_, ?_, ?_⟩
  · intro hst hau hwon hov
    norm_num at hov
    simp [complete_game, hst, hau, hwon, checkedMul64, hov]
  · intro hst hau hwon
    simp [complete_game, hst, hau, hwon]
  · intro h
    simp [complete_game, h]

/-- Witness for C3: spec scenario 6 — `complete_game(score=42)` on the
un-won demo game refunds `100 / 2 = 50` and completes the game; the same
call on a completed game fails `GameNotActive`. -/
theorem C3_complete_game_spec_witness :
    complete_game gameDemo 1 42 7 =
      .ok ({ gameDemo with
             status := .Completed, score := 42,
             is_won := false, updated_at := 7 },
        50,
        { game_id := "g1", player := 1, won := false, score := 42,
          moves := 0, timestamp := 7 }) ∧
    complete_game { gameDemo with status := .Completed } 1 42 7 =
      .fail .GameNotActive := by
  constructor
  · have h := (C3_complete_game_spec gameDemo 1 42 7).2.1 (by decide)
      (by decide) (by decide)
    rw [h]
    decide
  · exact (C3_complete_game_spec { gameDemo with status := .Completed }
      1 42 7).2.2 (by decide)

/-! ## C8 -/

/-- C8: on an active game whose caller is the authority, `withdraw_stake`
fails `WithdrawalTooEarly` while `now − updated_at ≤ 86399` and succeeds
from `now − updated_at = 86400` on, refunding
`stake_amount − stake_amount / 10` (the floored 10% penalty stays in
escrow) and abandoning the game. -/
theorem C8_withdraw_stake_spec (g : GameAccount) (caller : Pubkey)
    (now : Int) (hst : g.status = .Active) (hau : caller = g.authority) :
    (now - g.updated_at ≤ 86399 →
      withdraw_stake g caller now = .fail .WithdrawalTooEarly) ∧
    (86400 ≤ now - g.updated_at →
      withdraw_stake g caller now =
        .ok ({ g with status := .Abandoned, updated_at := now },
          g.stake_amount - g.stake_amount / 10,
          { game_id := g.game_id, player := g.authority,
            amount := g.stake_amount - g.stake_amount / 10,
            penalty := g.stake_amount / 10, timestamp := now })) := by
  constructor
  · intro h
    have hn : ¬ 86400 ≤ now - g.updated_at := by omega
    simp [withdraw_stake, hst, hau, hn]
  · intro h
    simp [withdraw_stake, hst, hau, h]

/-- Witness for C8: the demo game (`updated_at = 0`, stake 100) cannot be
withdrawn at `t = 86399` but at `t = 86400` refunds `100 − 10 = 90`. -/
theorem C8_withdraw_stake_spec_witness :
    withdraw_stake gameDemo 1 86399 = .fail .WithdrawalTooEarly ∧
    withdraw_stake gameDemo 1 86400 =
      .ok ({ gameDemo with status := .Abandoned, updated_at := 86400 }, 90,
        { game_id := "g1", player := 1, amount := 90, penalty := 10,
          timestamp := 86400 }) := by
  constructor
  · exact (C8_withdraw_stake_spec gameDemo 1 86399 (by decide)
      (by decide)).1 (by decide)
  · have h := (C8_withdraw_stake_spec gameDemo 1 86400 (by decide)
      (by decide)).2 (by decide)
    rw [h]
    decide

/-! ## C9 -/

/-- C9: a game whose status is not `Active` is terminal — `make_move`,
`complete_game` and `withdraw_stake` all fail with `GameNotActive` (their
first check), and a failing instruction is rolled back, so the record is
never mutated again. -/
theorem C9_terminal_states (g : GameAccount) (caller : Pubkey)
    (fp tp : String) (ci fs : Nat) (now : Int)
    (h : g.status ≠ .Active) :
    make_move g caller fp tp ci now = .fail .GameNotActive ∧
    complete_game g caller fs now = .fail .GameNotActive ∧
    withdraw_stake g caller now = .fail .GameNotActive := by
  refine ⟨?_, ?_, ?_⟩ <;>
    simp [make_move, complete_game, withdraw_stake, h]

/-- Witness for C9: `make_move` (and the two settlement instructions) on a
completed demo game fail `GameNotActive`. -/
theorem C9_terminal_states_witness :
    make_move { gameDemo with status := .Completed } 1 "stock" "waste" 0 9 =
      .fail .GameNotActive ∧
    complete_game { gameDemo with status := .Completed } 1 42 9 =
      .fail .GameNotActive ∧
    withdraw_stake { gameDemo with status := .Completed } 1 9 =
      .fail .GameNotActive :=
  C9_terminal_states { gameDemo with status := .Completed } 1 "stock"
    "waste" 0 42 9 (by decide)

/-! ## C10 -/

/-- The `GameState` stub, when it does not overflow, only bumps the embedded
counters; in particular it never touches `is_won`. -/
theorem make_move_state_inv {gs gs2 : GameState} {fp tp : String} {ci : Nat}
    (h : GameState.make_move gs fp tp ci = some gs2) :
    gs2 = { gs with moves := gs.moves + 1, score := gs.score + 10 } := by
  by_cases h1 : gs.moves + 1 < 4294967296
  · by_cases h2 : gs.score + 10 < 18446744073709551616
    · simp [GameState.make_move, checkedAdd32, checkedAdd64, h1, h2] at h
      exact h.symm
    · simp [GameState.make_move, checkedAdd32, checkedAdd64, h1, h2] at h
  · simp [GameState.make_move, checkedAdd32, h1] at h

/-- Inversion of a successful `make_move` on a game whose embedded win flag
is down: the game stays `Active`, only the counters and `updated_at` move,
and only `MoveMade` is emitted. -/
theorem make_move_ok_inv {g : GameAccount} {caller : Pubkey}
    {fp tp : String} {ci : Nat} {now : Int} {g2 : GameAccount}
    {evs : List SolitaireEvent}
    (hwon : g.game_state.is_won = false)
    (h : make_move g caller fp tp ci now = .ok (g2, evs)) :
    g2 = { g with
           game_state := { g.game_state with
                           moves := g.game_state.moves + 1,
                           score := g.game_state.score + 10 },
           moves := g.moves + 1, updated_at := now } ∧
    evs = [SolitaireEvent.moved
      { game_id := g.game_id, player := g.authority, from_pile := fp,
        to_pile := tp, card_index := ci, moves := g.moves + 1,
        timestamp := now }] ∧
    g.status = .Active := by
  by_cases hst : g.status = .Active
  · by_cases hau : caller = g.authority
    · by_cases h1 : g.game_state.moves + 1 < 4294967296
      · by_cases h2 : g.game_state.score + 10 < 18446744073709551616
        · by_cases h3 : g.moves + 1 < 4294967296
          · simp [make_move, GameState.make_move, checkedAdd32, checkedAdd64,
              hst, hau, hwon, h1, h2, h3] at h
            refine ⟨?_, h.2.symm, hst⟩
            rw [← h.1]
            simp [hst, hwon]
          · simp [make_move, GameState.make_move, checkedAdd32, checkedAdd64,
              hst, hau, h1, h2, h3] at h
        · simp [make_move, GameState.make_move, checkedAdd32, checkedAdd64,
            hst, hau, h1, h2] at h
      · simp [make_move, GameState.make_move, checkedAdd32, hst, hau,
          h1] at h
    · simp [make_move, hst, hau] at h
  · simp [make_move, hst] at h

/-- Inversion of a successful `complete_game` on a game whose embedded win
flag is down: the payout is the halved stake. -/
theorem complete_game_ok_inv {g : GameAccount} {caller : Pubkey} {fs : Nat}
    {now : Int} {g2 : GameAccount} {t : Nat} {ev : GameCompleted}
    (hwon : g.game_state.is_won = false)
    (h : complete_game g caller fs now = .ok (g2, t, ev)) :
    g2 = { g with
           status := .Completed, score := fs, is_won := false,
           updated_at := now } ∧
    t = g.stake_amount / 2 := by
  by_cases hst : g.status = .Active
  · by_cases hau : caller = g.authority
    · simp [complete_game, hst, hau, hwon] at h
      exact ⟨h.1.symm, h.2.1.symm⟩
    · simp [complete_game, hst, hau] at h
  · simp [complete_game, hst] at h

/-- Inversion of a successful `withdraw_stake`: it only flips the status to
`Abandoned` and stamps `updated_at`. -/
theorem withdraw_stake_ok_inv {g : GameAccount} {caller : Pubkey} {now : Int}
    {g2 : GameAccount} {t : Nat} {ev : StakeWithdrawn}
    (h : withdraw_stake g caller now = .ok (g2, t, ev)) :
    g2 = { g with status := .Abandoned, updated_at := now } := by
  by_cases hst : g.status = .Active
  · by_cases hau : caller = g.authority
    · by_cases htm : 86400 ≤ now - g.updated_at
      · simp [withdraw_stake, hst, hau, htm] at h
        exact h.1.symm
      · simp [withdraw_stake, hst, hau, htm] at h
    · simp [withdraw_stake, hst, hau] at h
  · simp [withdraw_stake, hst] at h

/-- No reachable game ever has its embedded `game_state.is_won` flag set:
`GameState::new` clears it and no instruction writes it. -/
theorem reachable_never_won (g : GameAccount) (h : Reachable g) :
    g.game_state.is_won = false := by
  induction h with
  | init authority game_id stake_amount reward_mint now g t ev hok =>
    by_cases h1 : 0 < stake_amount
    · by_cases h2 : game_id.length ≤ 32
      · simp [initialize_game, h1, h2] at hok
        obtain ⟨hg, -, -⟩ := hok
        subst hg
        simp [GameState.new]
      · simp [initialize_game, h1, h2] at hok
    · simp [initialize_game, h1] at hok
  | move g caller fp tp ci now g2 evs hre hok ih =>
    obtain ⟨hg2, -, -⟩ := make_move_ok_inv ih hok
    subst hg2
    simpa using ih
  | complete g caller fs now g2 t ev hre hok ih =>
    obtain ⟨hg2, -⟩ := complete_game_ok_inv ih hok
    subst hg2
    simpa using ih
  | withdraw g caller now g2 t ev hre hok ih =>
    have hg2 := withdraw_stake_ok_inv hok
    subst hg2
    simpa using ih

/-- C10: in every game reachable from `initialize_game` the embedded
`game_state.is_won` flag is false — `GameState::new` starts it false,
`GameState::make_move` never modifies the flag, and `GameState::is_won`
only reads it back — so the win branch of `make_move` is unreachable: a
successful `make_move` always leaves the game `Active`, keeps `is_won`
false, and emits only `MoveMade` (never `GameCompleted`); and a successful
`complete_game` always records `is_won = false` and always pays
`stake_amount / 2`, never `2 * stake_amount`. -/
theorem C10_win_branch_unreachable (g : GameAccount) (h : Reachable g) :
    g.game_state.is_won = false ∧
    (∀ (gs gs2 : GameState) (fp tp : String) (ci : Nat),
      GameState.make_move gs fp tp ci = some gs2 →
      gs2.is_won = gs.is_won) ∧
    (∀ (caller : Pubkey) (fp tp : String) (ci : Nat) (now : Int)
      (g2 : GameAccount) (evs : List SolitaireEvent),
      make_move g caller fp tp ci now = .ok (g2, evs) →
      g2.status = .Active ∧ g2.is_won = g.is_won ∧
      g2.game_state.is_won = false ∧
      evs = [SolitaireEvent.moved
        { game_id := g.game_id, player := g.authority, from_pile := fp,
          to_pile := tp, card_index := ci, moves := g.moves + 1,
          timestamp := now }]) ∧
    (∀ (caller : Pubkey) (fs : Nat) (now : Int) (g2 : GameAccount) (t : Nat)
      (ev : GameCompleted),
      complete_game g caller fs now = .ok (g2, t, ev) →
      g2.is_won = false ∧ t = g.stake_amount / 2) := by
  have hwon := reachable_never_won g h
  refine ⟨hwon, ?_, ?_, ?_⟩
  · intro gs gs2 fp tp ci hok
    rw [make_move_state_inv hok]
  · intro caller fp tp ci now g2 evs hok
    obtain ⟨hg2, hev, hst⟩ := make_move_ok_inv hwon hok
    subst hg2
    exact ⟨by simpa using hst, rfl, by simpa using hwon, hev⟩
  · intro caller fs now g2 t ev hok
    obtain ⟨hg2, ht⟩ := complete_game_ok_inv hwon hok
    subst hg2
    exact ⟨rfl, ht⟩

/-- Witness for C10: the freshly initialized scenario-6 game is reachable
and its embedded win flag is down. -/
theorem C10_win_branch_unreachable_witness :
    gameDemo.game_state.is_won = false :=
  (C10_win_branch_unreachable gameDemo
    (Reachable.init 1 "g1" 100 2 0 gameDemo 100
      { game_id := "g1", player := 1, stake_amount := 100, timestamp := 0 }
      (by decide))).1
